import Mathlib

/-!
# Verification of the quiz supply pipeline (WebAPI.py / WebAPIboto3.py)

Shallow embedding of the `/quiz` handler `generate_quiz` and the global
state it mutates: `request_timestamps` (per-minute rate limiter window),
`api_call_count` / `last_reset_date` (daily upstream budget),
`QUIZ_CACHE` (quiz stock) and `SERVING_POOL` (shuffled serving pool).

External collaborators (the generative model call, `json.loads`, and
`random.shuffle`) are modelled as an `Env` record supplied per call:
the raw response text (`none` when the upstream call raises), a JSON
parse oracle, and the shuffle outcome function.  Timestamps are `Int`
seconds; calendar dates are `Int` ordinals (larger = later day).
-/

/-- A parsed quiz payload (the JSON object produced by `json.loads`);
treated as an opaque immutable value. -/
abbrev Quiz := String

/-- The module-level constants of WebAPI.py: `MINUTE_LIMIT`, `MINUTE_WINDOW`,
`DAILY_API_LIMIT`, `SET_SIZE`. -/
structure Config where
  MINUTE_LIMIT : Nat
  MINUTE_WINDOW : Int
  DAILY_API_LIMIT : Nat
  SET_SIZE : Nat

/-- The constant values in the source: 55 requests / 60 s, 500 daily calls,
stock target size 5. -/
def defaultConfig : Config := ⟨55, 60, 500, 5⟩

/-- Per-call external collaborators: the raw generator response
(`none` = the upstream call raised), the `json.loads` oracle
(`none` = parse exception), and the outcome of `random.shuffle`. -/
structure Env where
  response : Option (List Char)
  jsonParse : List Char → Option Quiz
  shuffle : List Quiz → List Quiz

/-- The five global mutable variables of WebAPI.py. -/
structure ServerState where
  request_timestamps : List Int
  api_call_count : Nat
  last_reset_date : Int
  QUIZ_CACHE : List Quiz
  SERVING_POOL : List Quiz
deriving Repr, DecidableEq

/-- Which exception the `try` block raised: the upstream `send_message`
call failing, the `ValueError` when no `{...}` span exists in the raw
text, or `json.loads` failing on the extracted span. -/
inductive GenFailure
  | upstream
  | noJsonFound
  | loadsFailed
deriving Repr, DecidableEq

/-- The observable outcome of one `/quiz` request.
`quiz` = HTTP 200; `rateLimited` = 429 from the per-minute limiter;
`genError` = 500 from the `except` block; `exhausted` = 429
"Daily API limit reached and no quizzes are available";
`popError` = unreachable `IndexError` from popping an empty list
(possible in the model only when the shuffle oracle is not a
permutation). -/
inductive QuizResponse
  | quiz (q : Quiz)
  | rateLimited
  | genError (e : GenFailure)
  | exhausted
  | popError
deriving Repr, DecidableEq

/-- Python `raw_text.find(c)`: index of the first occurrence, `-1` if absent. -/
def strFind (s : List Char) (c : Char) : Int :=
  match s.findIdx? (fun x => x == c) with
  | some i => (i : Int)
  | none => -1

/-- Python `raw_text.rfind(c)`: index of the last occurrence, `-1` if absent. -/
def strRfind (s : List Char) (c : Char) : Int :=
  match s.reverse.findIdx? (fun x => x == c) with
  | some i => (s.length : Int) - 1 - (i : Int)
  | none => -1

/-- Lines 79–93 of WebAPI.py inside the `try` block: make the upstream
call, locate the first `{` and last `}`, slice
`raw_text[json_start:json_end]` and `json.loads` it. -/
def genResult (env : Env) : Except GenFailure Quiz :=
  match env.response with
  | none => Except.error GenFailure.upstream
  | some raw =>
    if strFind raw '{' ≠ -1 ∧ strRfind raw '}' + 1 ≠ 0 then
      match env.jsonParse ((raw.take (strRfind raw '}' + 1).toNat).drop (strFind raw '{').toNat) with
      | some q => Except.ok q
      | none => Except.error GenFailure.loadsFailed
    else Except.error GenFailure.noJsonFound

/-- Line 56: keep only timestamps with `current_time - t < MINUTE_WINDOW`. -/
def purge (cfg : Config) (now : Int) (tss : List Int) : List Int :=
  tss.filter (fun x => decide (now - x < cfg.MINUTE_WINDOW))

/-- Lines 71–74: reset the daily counter when the calendar date advanced. -/
def rollover (today : Int) (s : ServerState) : ServerState :=
  if s.last_reset_date < today then
    { s with api_call_count := 0, last_reset_date := today }
  else s

/-- The daily counter as it stands after the rollover check. -/
def rolledCount (s : ServerState) (today : Int) : Nat :=
  if s.last_reset_date < today then 0 else s.api_call_count

/-- The budget window date as it stands after the rollover check. -/
def rolledDate (s : ServerState) (today : Int) : Int :=
  if s.last_reset_date < today then today else s.last_reset_date

/-- Lines 78–102, the `try`/`except` block: increment `api_call_count`,
call the generator, extract and parse; append to `QUIZ_CACHE` and serve
the new quiz on success, or answer 500 on any exception (the counter
stays incremented either way). -/
def genPath (env : Env) (s : ServerState) : QuizResponse × ServerState :=
  match genResult env with
  | Except.ok q =>
    (QuizResponse.quiz q,
     { s with api_call_count := s.api_call_count + 1, QUIZ_CACHE := s.QUIZ_CACHE ++ [q] })
  | Except.error e =>
    (QuizResponse.genError e, { s with api_call_count := s.api_call_count + 1 })

/-- Lines 107–113: copy the stock, shuffle, pop the last element. -/
def batchPath (env : Env) (s : ServerState) : QuizResponse × ServerState :=
  match (env.shuffle s.QUIZ_CACHE).getLast? with
  | some q =>
    (QuizResponse.quiz q, { s with SERVING_POOL := (env.shuffle s.QUIZ_CACHE).dropLast })
  | none => (QuizResponse.popError, s)

/-- Lines 76–113 after the rollover: grow the stock when it is below
`SET_SIZE` and budget remains, otherwise fail when the stock is empty,
otherwise build and draw from a fresh serving pool. -/
def slowPath (cfg : Config) (env : Env) (s : ServerState) : QuizResponse × ServerState :=
  if s.QUIZ_CACHE.length < cfg.SET_SIZE ∧ s.api_call_count < cfg.DAILY_API_LIMIT then
    genPath env s
  else if s.QUIZ_CACHE = [] then (QuizResponse.exhausted, s)
  else batchPath env s

/-- Lines 63–113 after the rate-limit gate: serve from `SERVING_POOL`
when it is non-empty (`list.pop()` takes the last element), else run
the date rollover and the slow path. -/
def afterGate (cfg : Config) (env : Env) (today : Int) (s : ServerState) :
    QuizResponse × ServerState :=
  match s.SERVING_POOL.getLast? with
  | some q => (QuizResponse.quiz q, { s with SERVING_POOL := s.SERVING_POOL.dropLast })
  | none => slowPath cfg env (rollover today s)

/-- The `/quiz` handler `generate_quiz` (WebAPI.py lines 51–113):
purge the limiter window; reject with 429 when the retained count
reaches `MINUTE_LIMIT` (the rejected timestamp is not recorded);
otherwise record the timestamp and continue. -/
def generate_quiz (cfg : Config) (env : Env) (current_time today : Int) (s : ServerState) :
    QuizResponse × ServerState :=
  if cfg.MINUTE_LIMIT ≤ (purge cfg current_time s.request_timestamps).length then
    (QuizResponse.rateLimited,
     { s with request_timestamps := purge cfg current_time s.request_timestamps })
  else
    afterGate cfg env today
      { s with request_timestamps := purge cfg current_time s.request_timestamps ++ [current_time] }

/-- The `/quiz` handler of the Lambda variant WebAPIboto3.py
(lines 92–175): identical to `generate_quiz` except for an early 500
when the API key was never loaded. -/
def generate_quiz_boto3 (cfg : Config) (apiKeyLoaded : Bool) (env : Env)
    (current_time today : Int) (s : ServerState) : QuizResponse × ServerState :=
  if apiKeyLoaded = false then (QuizResponse.genError GenFailure.upstream, s)
  else generate_quiz cfg env current_time today s

/-- The standalone RateLimiter component (spec §4.1): the admission
step of lines 55–60 as `admit(now)` over the retained-timestamp list. -/
def rateLimitCheck (cfg : Config) (now : Int) (tss : List Int) : Bool × List Int :=
  if cfg.MINUTE_LIMIT ≤ (purge cfg now tss).length then (false, purge cfg now tss)
  else (true, purge cfg now tss ++ [now])

/-- Run the rate limiter over a sequence of request timestamps,
returning the admission verdicts and the final retained list. -/
def rlRun (cfg : Config) (times : List Int) (tss : List Int) : List Bool × List Int :=
  match times with
  | [] => ([], tss)
  | t :: rest =>
    ((rateLimitCheck cfg t tss).1 :: (rlRun cfg rest (rateLimitCheck cfg t tss).2).1,
     (rlRun cfg rest (rateLimitCheck cfg t tss).2).2)

/-- The standalone UpstreamBudget component (spec §4.2): the rollover
(lines 71–74) followed by the check-and-increment (lines 76, 79) as
`tryReserve(today)` over `(callsToday, windowDate)`. -/
def tryReserve (cfg : Config) (today : Int) (callsToday : Nat) (windowDate : Int) :
    Bool × Nat × Int :=
  let c := if windowDate < today then 0 else callsToday
  let d := if windowDate < today then today else windowDate
  if c < cfg.DAILY_API_LIMIT then (true, c + 1, d) else (false, c, d)

/-- `k` successive budget reservations (dropping the verdicts). -/
def reserveIter (cfg : Config) (today : Int) : Nat → Nat × Int → Nat × Int
  | 0, st => st
  | k + 1, st =>
    (tryReserve cfg today (reserveIter cfg today k st).1 (reserveIter cfg today k st).2).2

/-- A sequence of `/quiz` requests, all at time `t` on date `today`,
with one `Env` per request; returns the responses and the final state. -/
def pipelineRun (cfg : Config) (envs : List Env) (t today : Int) (s : ServerState) :
    List QuizResponse × ServerState :=
  match envs with
  | [] => ([], s)
  | e :: rest =>
    ((generate_quiz cfg e t today s).1 ::
       (pipelineRun cfg rest t today (generate_quiz cfg e t today s).2).1,
     (pipelineRun cfg rest t today (generate_quiz cfg e t today s).2).2)

/-- A concrete environment whose generation succeeds with payload "Q"
and whose shuffle is the identity permutation. -/
def envOK : Env := ⟨some ['{', '}'], fun _ => some "Q", fun l => l⟩

example : genResult envOK = Except.ok "Q" := rfl
example :
    (generate_quiz defaultConfig envOK 0 0 ⟨[], 0, 0, [], []⟩).2.QUIZ_CACHE = ["Q"] := rfl

/-! ## Branch characterization lemmas -/

theorem purge_length_le (cfg : Config) (now : Int) (tss : List Int) :
    (purge cfg now tss).length ≤ tss.length :=
  List.length_filter_le _ _

theorem purge_keep (cfg : Config) (now : Int) (tss : List Int)
    (h : ∀ x ∈ tss, now - x < cfg.MINUTE_WINDOW) : purge cfg now tss = tss := by
  unfold purge
  rw [List.filter_eq_self]
  intro a ha
  exact decide_eq_true (h a ha)

theorem gate_reject (cfg : Config) (e : Env) (t D : Int) (s : ServerState)
    (h : cfg.MINUTE_LIMIT ≤ (purge cfg t s.request_timestamps).length) :
    generate_quiz cfg e t D s =
      (QuizResponse.rateLimited,
       { s with request_timestamps := purge cfg t s.request_timestamps }) := by
  unfold generate_quiz
  rw [if_pos h]

theorem gate_pass (cfg : Config) (e : Env) (t D : Int) (s : ServerState)
    (h : (purge cfg t s.request_timestamps).length < cfg.MINUTE_LIMIT) :
    generate_quiz cfg e t D s =
      afterGate cfg e D
        { s with request_timestamps := purge cfg t s.request_timestamps ++ [t] } := by
  unfold generate_quiz
  rw [if_neg (by omega)]

theorem afterGate_pop (cfg : Config) (e : Env) (D : Int) (s : ServerState) (q : Quiz)
    (h : s.SERVING_POOL.getLast? = some q) :
    afterGate cfg e D s =
      (QuizResponse.quiz q, { s with SERVING_POOL := s.SERVING_POOL.dropLast }) := by
  unfold afterGate
  rw [h]

theorem afterGate_none (cfg : Config) (e : Env) (D : Int) (s : ServerState)
    (h : s.SERVING_POOL = []) :
    afterGate cfg e D s = slowPath cfg e (rollover D s) := by
  unfold afterGate
  rw [h]
  rfl

theorem rollover_eq (D : Int) (s : ServerState) :
    rollover D s =
      { s with api_call_count := rolledCount s D, last_reset_date := rolledDate s D } := by
  unfold rollover rolledCount rolledDate
  by_cases h : s.last_reset_date < D <;> simp [h]

theorem rolledCount_same (s : ServerState) (D : Int) (h : s.last_reset_date = D) :
    rolledCount s D = s.api_call_count := by
  unfold rolledCount
  rw [h]
  simp

theorem rolledDate_same (s : ServerState) (D : Int) (h : s.last_reset_date = D) :
    rolledDate s D = D := by
  unfold rolledDate
  rw [h]
  simp

theorem slowPath_gen (cfg : Config) (e : Env) (s : ServerState)
    (h : s.QUIZ_CACHE.length < cfg.SET_SIZE ∧ s.api_call_count < cfg.DAILY_API_LIMIT) :
    slowPath cfg e s = genPath e s := by
  unfold slowPath
  rw [if_pos h]

theorem slowPath_exhausted (cfg : Config) (e : Env) (s : ServerState)
    (h : ¬(s.QUIZ_CACHE.length < cfg.SET_SIZE ∧ s.api_call_count < cfg.DAILY_API_LIMIT))
    (h2 : s.QUIZ_CACHE = []) :
    slowPath cfg e s = (QuizResponse.exhausted, s) := by
  unfold slowPath
  rw [if_neg h, if_pos h2]

theorem slowPath_batch (cfg : Config) (e : Env) (s : ServerState)
    (h : ¬(s.QUIZ_CACHE.length < cfg.SET_SIZE ∧ s.api_call_count < cfg.DAILY_API_LIMIT))
    (h2 : s.QUIZ_CACHE ≠ []) :
    slowPath cfg e s = batchPath e s := by
  unfold slowPath
  rw [if_neg h, if_neg h2]

theorem genPath_ok (e : Env) (s : ServerState) (q : Quiz)
    (h : genResult e = Except.ok q) :
    genPath e s =
      (QuizResponse.quiz q,
       { s with api_call_count := s.api_call_count + 1, QUIZ_CACHE := s.QUIZ_CACHE ++ [q] }) := by
  unfold genPath
  rw [h]

theorem genPath_err (e : Env) (s : ServerState) (err : GenFailure)
    (h : genResult e = Except.error err) :
    genPath e s =
      (QuizResponse.genError err, { s with api_call_count := s.api_call_count + 1 }) := by
  unfold genPath
  rw [h]

theorem batchPath_draw (e : Env) (s : ServerState)
    (hne : s.QUIZ_CACHE ≠ [])
    (hperm : List.Perm (e.shuffle s.QUIZ_CACHE) s.QUIZ_CACHE) :
    ∃ q, batchPath e s =
      (QuizResponse.quiz q,
       { s with SERVING_POOL := (e.shuffle s.QUIZ_CACHE).dropLast }) := by
  have hne2 : e.shuffle s.QUIZ_CACHE ≠ [] := by
    intro h0
    apply hne
    have hl := hperm.length_eq
    rw [h0] at hl
    exact List.eq_nil_of_length_eq_zero hl.symm
  obtain ⟨q, hq⟩ := Option.isSome_iff_exists.mp (List.getLast?_isSome.mpr hne2)
  refine ⟨q, ?_⟩
  unfold batchPath
  rw [hq]

/-! ## One-call step lemmas (each feasible branch of `generate_quiz`) -/

/-- Admitted call, empty pool, growth condition holds, generation parses:
the new quiz is served and appended to the stock. -/
theorem step_gen_ok (cfg : Config) (e : Env) (t D : Int) (s : ServerState) (q : Quiz)
    (hadm : (purge cfg t s.request_timestamps).length < cfg.MINUTE_LIMIT)
    (hpool : s.SERVING_POOL = [])
    (hq : genResult e = Except.ok q)
    (hcache : s.QUIZ_CACHE.length < cfg.SET_SIZE)
    (hbud : rolledCount s D < cfg.DAILY_API_LIMIT) :
    generate_quiz cfg e t D s =
      (QuizResponse.quiz q,
       ⟨purge cfg t s.request_timestamps ++ [t], rolledCount s D + 1, rolledDate s D,
        s.QUIZ_CACHE ++ [q], []⟩) := by
  have h2 := afterGate_none cfg e D
    (⟨purge cfg t s.request_timestamps ++ [t], s.api_call_count, s.last_reset_date,
      s.QUIZ_CACHE, s.SERVING_POOL⟩ : ServerState) hpool
  have h3 : rollover D
      (⟨purge cfg t s.request_timestamps ++ [t], s.api_call_count, s.last_reset_date,
        s.QUIZ_CACHE, s.SERVING_POOL⟩ : ServerState) =
      (⟨purge cfg t s.request_timestamps ++ [t], rolledCount s D, rolledDate s D,
        s.QUIZ_CACHE, s.SERVING_POOL⟩ : ServerState) := by
    unfold rollover rolledCount rolledDate
    by_cases hr : s.last_reset_date < D <;> simp [hr]
  have h4 := slowPath_gen cfg e
    (⟨purge cfg t s.request_timestamps ++ [t], rolledCount s D, rolledDate s D,
      s.QUIZ_CACHE, s.SERVING_POOL⟩ : ServerState) ⟨hcache, hbud⟩
  have h5 := genPath_ok e
    (⟨purge cfg t s.request_timestamps ++ [t], rolledCount s D, rolledDate s D,
      s.QUIZ_CACHE, s.SERVING_POOL⟩ : ServerState) q hq
  rw [gate_pass cfg e t D s hadm, h2, h3, h4, h5]
  simp [hpool]

/-- Admitted call, empty pool, growth condition holds, generation fails:
a 500 is returned, the stock and pool are untouched, the counter stays
incremented. -/
theorem step_gen_err (cfg : Config) (e : Env) (t D : Int) (s : ServerState) (err : GenFailure)
    (hadm : (purge cfg t s.request_timestamps).length < cfg.MINUTE_LIMIT)
    (hpool : s.SERVING_POOL = [])
    (he : genResult e = Except.error err)
    (hcache : s.QUIZ_CACHE.length < cfg.SET_SIZE)
    (hbud : rolledCount s D < cfg.DAILY_API_LIMIT) :
    generate_quiz cfg e t D s =
      (QuizResponse.genError err,
       ⟨purge cfg t s.request_timestamps ++ [t], rolledCount s D + 1, rolledDate s D,
        s.QUIZ_CACHE, []⟩) := by
  have h2 := afterGate_none cfg e D
    (⟨purge cfg t s.request_timestamps ++ [t], s.api_call_count, s.last_reset_date,
      s.QUIZ_CACHE, s.SERVING_POOL⟩ : ServerState) hpool
  have h3 : rollover D
      (⟨purge cfg t s.request_timestamps ++ [t], s.api_call_count, s.last_reset_date,
        s.QUIZ_CACHE, s.SERVING_POOL⟩ : ServerState) =
      (⟨purge cfg t s.request_timestamps ++ [t], rolledCount s D, rolledDate s D,
        s.QUIZ_CACHE, s.SERVING_POOL⟩ : ServerState) := by
    unfold rollover rolledCount rolledDate
    by_cases hr : s.last_reset_date < D <;> simp [hr]
  have h4 := slowPath_gen cfg e
    (⟨purge cfg t s.request_timestamps ++ [t], rolledCount s D, rolledDate s D,
      s.QUIZ_CACHE, s.SERVING_POOL⟩ : ServerState) ⟨hcache, hbud⟩
  have h5 := genPath_err e
    (⟨purge cfg t s.request_timestamps ++ [t], rolledCount s D, rolledDate s D,
      s.QUIZ_CACHE, s.SERVING_POOL⟩ : ServerState) err he
  rw [gate_pass cfg e t D s hadm, h2, h3, h4, h5]
  simp [hpool]

/-- Admitted call with a non-empty pool: the last pool element is served. -/
theorem step_pop (cfg : Config) (e : Env) (t D : Int) (s : ServerState) (q : Quiz)
    (hadm : (purge cfg t s.request_timestamps).length < cfg.MINUTE_LIMIT)
    (hq : s.SERVING_POOL.getLast? = some q) :
    generate_quiz cfg e t D s =
      (QuizResponse.quiz q,
       ⟨purge cfg t s.request_timestamps ++ [t], s.api_call_count, s.last_reset_date,
        s.QUIZ_CACHE, s.SERVING_POOL.dropLast⟩) := by
  have h2 := afterGate_pop cfg e D
    (⟨purge cfg t s.request_timestamps ++ [t], s.api_call_count, s.last_reset_date,
      s.QUIZ_CACHE, s.SERVING_POOL⟩ : ServerState) q hq
  rw [gate_pass cfg e t D s hadm, h2]

/-- Admitted call, empty pool, growth condition fails, non-empty stock:
a fresh pool is built from the shuffled stock and its last element served. -/
theorem step_batch (cfg : Config) (e : Env) (t D : Int) (s : ServerState)
    (hadm : (purge cfg t s.request_timestamps).length < cfg.MINUTE_LIMIT)
    (hpool : s.SERVING_POOL = [])
    (hng : ¬(s.QUIZ_CACHE.length < cfg.SET_SIZE ∧ rolledCount s D < cfg.DAILY_API_LIMIT))
    (hne : s.QUIZ_CACHE ≠ [])
    (hperm : List.Perm (e.shuffle s.QUIZ_CACHE) s.QUIZ_CACHE) :
    ∃ q, generate_quiz cfg e t D s =
      (QuizResponse.quiz q,
       ⟨purge cfg t s.request_timestamps ++ [t], rolledCount s D, rolledDate s D,
        s.QUIZ_CACHE, (e.shuffle s.QUIZ_CACHE).dropLast⟩) := by
  obtain ⟨q, hq⟩ := batchPath_draw e
    (⟨purge cfg t s.request_timestamps ++ [t], rolledCount s D, rolledDate s D,
      s.QUIZ_CACHE, s.SERVING_POOL⟩ : ServerState) hne hperm
  refine ⟨q, ?_⟩
  have h2 := afterGate_none cfg e D
    (⟨purge cfg t s.request_timestamps ++ [t], s.api_call_count, s.last_reset_date,
      s.QUIZ_CACHE, s.SERVING_POOL⟩ : ServerState) hpool
  have h3 : rollover D
      (⟨purge cfg t s.request_timestamps ++ [t], s.api_call_count, s.last_reset_date,
        s.QUIZ_CACHE, s.SERVING_POOL⟩ : ServerState) =
      (⟨purge cfg t s.request_timestamps ++ [t], rolledCount s D, rolledDate s D,
        s.QUIZ_CACHE, s.SERVING_POOL⟩ : ServerState) := by
    unfold rollover rolledCount rolledDate
    by_cases hr : s.last_reset_date < D <;> simp [hr]
  have h4 := slowPath_batch cfg e
    (⟨purge cfg t s.request_timestamps ++ [t], rolledCount s D, rolledDate s D,
      s.QUIZ_CACHE, s.SERVING_POOL⟩ : ServerState) hng hne
  rw [gate_pass cfg e t D s hadm, h2, h3, h4, hq]

/-- Admitted call, empty pool, growth condition fails, non-empty stock,
with no assumption on the shuffle oracle: the call reduces to `batchPath`
at the post-rollover state. -/
theorem step_batch_any (cfg : Config) (e : Env) (t D : Int) (s : ServerState)
    (hadm : (purge cfg t s.request_timestamps).length < cfg.MINUTE_LIMIT)
    (hpool : s.SERVING_POOL = [])
    (hng : ¬(s.QUIZ_CACHE.length < cfg.SET_SIZE ∧ rolledCount s D < cfg.DAILY_API_LIMIT))
    (hne : s.QUIZ_CACHE ≠ []) :
    generate_quiz cfg e t D s =
      batchPath e
        (⟨purge cfg t s.request_timestamps ++ [t], rolledCount s D, rolledDate s D,
          s.QUIZ_CACHE, s.SERVING_POOL⟩ : ServerState) := by
  have h2 := afterGate_none cfg e D
    (⟨purge cfg t s.request_timestamps ++ [t], s.api_call_count, s.last_reset_date,
      s.QUIZ_CACHE, s.SERVING_POOL⟩ : ServerState) hpool
  have h3 : rollover D
      (⟨purge cfg t s.request_timestamps ++ [t], s.api_call_count, s.last_reset_date,
        s.QUIZ_CACHE, s.SERVING_POOL⟩ : ServerState) =
      (⟨purge cfg t s.request_timestamps ++ [t], rolledCount s D, rolledDate s D,
        s.QUIZ_CACHE, s.SERVING_POOL⟩ : ServerState) := by
    unfold rollover rolledCount rolledDate
    by_cases hr : s.last_reset_date < D <;> simp [hr]
  have h4 := slowPath_batch cfg e
    (⟨purge cfg t s.request_timestamps ++ [t], rolledCount s D, rolledDate s D,
      s.QUIZ_CACHE, s.SERVING_POOL⟩ : ServerState) hng hne
  rw [gate_pass cfg e t D s hadm, h2, h3, h4]

/-- `batchPath` never touches the stock, the budget counters, or the
limiter window, and never answers with the rate-limit rejection. -/
theorem batchPath_frame (e : Env) (s : ServerState) :
    (batchPath e s).2.QUIZ_CACHE = s.QUIZ_CACHE ∧
    (batchPath e s).2.api_call_count = s.api_call_count ∧
    (batchPath e s).2.last_reset_date = s.last_reset_date ∧
    (batchPath e s).2.request_timestamps = s.request_timestamps ∧
    (batchPath e s).1 ≠ QuizResponse.rateLimited := by
  unfold batchPath
  split <;> exact ⟨rfl, rfl, rfl, rfl, by simp⟩

/-- Admitted call, empty pool, growth condition fails, empty stock:
the exhausted 429 is returned and nothing besides the limiter changes. -/
theorem step_exhausted (cfg : Config) (e : Env) (t D : Int) (s : ServerState)
    (hadm : (purge cfg t s.request_timestamps).length < cfg.MINUTE_LIMIT)
    (hpool : s.SERVING_POOL = [])
    (hng : ¬(s.QUIZ_CACHE.length < cfg.SET_SIZE ∧ rolledCount s D < cfg.DAILY_API_LIMIT))
    (hnil : s.QUIZ_CACHE = []) :
    generate_quiz cfg e t D s =
      (QuizResponse.exhausted,
       ⟨purge cfg t s.request_timestamps ++ [t], rolledCount s D, rolledDate s D,
        [], []⟩) := by
  have h2 := afterGate_none cfg e D
    (⟨purge cfg t s.request_timestamps ++ [t], s.api_call_count, s.last_reset_date,
      s.QUIZ_CACHE, s.SERVING_POOL⟩ : ServerState) hpool
  have h3 : rollover D
      (⟨purge cfg t s.request_timestamps ++ [t], s.api_call_count, s.last_reset_date,
        s.QUIZ_CACHE, s.SERVING_POOL⟩ : ServerState) =
      (⟨purge cfg t s.request_timestamps ++ [t], rolledCount s D, rolledDate s D,
        s.QUIZ_CACHE, s.SERVING_POOL⟩ : ServerState) := by
    unfold rollover rolledCount rolledDate
    by_cases hr : s.last_reset_date < D <;> simp [hr]
  have h4 := slowPath_exhausted cfg e
    (⟨purge cfg t s.request_timestamps ++ [t], rolledCount s D, rolledDate s D,
      s.QUIZ_CACHE, s.SERVING_POOL⟩ : ServerState) hng hnil
  rw [gate_pass cfg e t D s hadm, h2, h3, h4]
  simp [hpool, hnil]

/-! ## Claim theorems -/

/-- C3: Daily budget exhaustion and rollover — starting from
`(callsToday, windowDate) = (0, D)`, each of the first `dailyLimit`
reservations on date `D` succeeds, after which the state is
`(dailyLimit, D)`; a further reservation on `D` fails; a reservation on
`D + 1` succeeds, leaving `callsToday = 1` and `windowDate = D + 1`. -/
theorem daily_budget_rollover (cfg : Config) (D : Int) (hL : 0 < cfg.DAILY_API_LIMIT) :
    (∀ k < cfg.DAILY_API_LIMIT,
       (tryReserve cfg D (reserveIter cfg D k (0, D)).1 (reserveIter cfg D k (0, D)).2).1 =
         true) ∧
    reserveIter cfg D cfg.DAILY_API_LIMIT (0, D) = (cfg.DAILY_API_LIMIT, D) ∧
    (tryReserve cfg D cfg.DAILY_API_LIMIT D).1 = false ∧
    tryReserve cfg (D + 1) cfg.DAILY_API_LIMIT D = (true, 1, D + 1) := by
  have hiter : ∀ k, k ≤ cfg.DAILY_API_LIMIT → reserveIter cfg D k (0, D) = (k, D) := by
    intro k
    induction k with
    | zero => intro _; rfl
    | succ n ih =>
      intro hk
      have hn := ih (by omega)
      unfold reserveIter
      rw [hn]
      unfold tryReserve
      simp only [lt_irrefl, if_false]
      rw [if_pos (show n < cfg.DAILY_API_LIMIT by omega)]
  refine ⟨?_, hiter cfg.DAILY_API_LIMIT le_rfl, ?_, ?_⟩
  · intro k hk
    rw [hiter k (le_of_lt hk)]
    unfold tryReserve
    simp only [lt_irrefl, if_false]
    rw [if_pos hk]
  · unfold tryReserve
    simp [lt_irrefl]
  · unfold tryReserve
    have hlt : D < D + 1 := by omega
    simp [hlt, hL]

/-- Witness for C3 at `dailyLimit = 2`, `D = 0`. -/
theorem daily_budget_rollover_witness :
    (tryReserve ⟨55, 60, 2, 5⟩ 0 2 0).1 = false ∧
    tryReserve ⟨55, 60, 2, 5⟩ 1 2 0 = (true, 1, 1) :=
  ⟨(daily_budget_rollover ⟨55, 60, 2, 5⟩ 0 (by decide)).2.2.1,
   (daily_budget_rollover ⟨55, 60, 2, 5⟩ 0 (by decide)).2.2.2⟩

/-- C5: Stock/pool exclusivity — a single `/quiz` call never both
changes `QUIZ_CACHE` and changes `SERVING_POOL`: on every call at least
one of the two collections is left exactly as it was, so no call both
appends to the stock and pops from the pool. -/
theorem stock_pool_exclusive (cfg : Config) (e : Env) (t D : Int) (s : ServerState) :
    (generate_quiz cfg e t D s).2.QUIZ_CACHE = s.QUIZ_CACHE ∨
    (generate_quiz cfg e t D s).2.SERVING_POOL = s.SERVING_POOL := by
  by_cases hadm : cfg.MINUTE_LIMIT ≤ (purge cfg t s.request_timestamps).length
  · left
    rw [gate_reject cfg e t D s hadm]
  · have hadm2 : (purge cfg t s.request_timestamps).length < cfg.MINUTE_LIMIT := by omega
    cases hpool : s.SERVING_POOL.getLast? with
    | some q =>
      left
      rw [step_pop cfg e t D s q hadm2 hpool]
    | none =>
      have hpool2 : s.SERVING_POOL = [] := List.getLast?_eq_none_iff.mp hpool
      by_cases hgrow :
          s.QUIZ_CACHE.length < cfg.SET_SIZE ∧ rolledCount s D < cfg.DAILY_API_LIMIT
      · cases hg : genResult e with
        | ok q =>
          right
          rw [step_gen_ok cfg e t D s q hadm2 hpool2 hg hgrow.1 hgrow.2, hpool2]
        | error err =>
          left
          rw [step_gen_err cfg e t D s err hadm2 hpool2 hg hgrow.1 hgrow.2]
      · by_cases hnil : s.QUIZ_CACHE = []
        · left
          rw [step_exhausted cfg e t D s hadm2 hpool2 hgrow hnil, hnil]
        · left
          rw [step_batch_any cfg e t D s hadm2 hpool2 hgrow hnil]
          exact (batchPath_frame e _).1

/-- C7: Batching preserves the stock — a call that builds a fresh
serving pool (admitted, pool empty, growth condition false, stock
non-empty) leaves `QUIZ_CACHE` exactly equal to what it was before. -/
theorem batching_preserves_stock (cfg : Config) (e : Env) (t D : Int) (s : ServerState)
    (hadm : (purge cfg t s.request_timestamps).length < cfg.MINUTE_LIMIT)
    (hpool : s.SERVING_POOL = [])
    (hng : ¬(s.QUIZ_CACHE.length < cfg.SET_SIZE ∧ rolledCount s D < cfg.DAILY_API_LIMIT))
    (hne : s.QUIZ_CACHE ≠ []) :
    (generate_quiz cfg e t D s).2.QUIZ_CACHE = s.QUIZ_CACHE := by
  rw [step_batch_any cfg e t D s hadm hpool hng hne]
  exact (batchPath_frame e _).1

/-- Witness for C7: budget exhausted, two-item stock, empty pool. -/
theorem batching_preserves_stock_witness :
    (generate_quiz defaultConfig envOK 0 0 ⟨[], 500, 0, ["A", "B"], []⟩).2.QUIZ_CACHE =
      ["A", "B"] :=
  batching_preserves_stock defaultConfig envOK 0 0 ⟨[], 500, 0, ["A", "B"], []⟩
    (by decide) rfl (by decide) (by decide)

/-- C8: Rate-limited rejection is atomic apart from the purge — when the
purged window still holds `MINUTE_LIMIT` timestamps, the call answers 429,
the rejected timestamp is not recorded (the window is exactly the purge
of the old one), and stock, pool, budget counter and budget date are
unchanged. -/
theorem rate_limited_rejection_atomic (cfg : Config) (e : Env) (t D : Int) (s : ServerState)
    (h : cfg.MINUTE_LIMIT ≤ (purge cfg t s.request_timestamps).length) :
    (generate_quiz cfg e t D s).1 = QuizResponse.rateLimited ∧
    (generate_quiz cfg e t D s).2.request_timestamps = purge cfg t s.request_timestamps ∧
    (generate_quiz cfg e t D s).2.QUIZ_CACHE = s.QUIZ_CACHE ∧
    (generate_quiz cfg e t D s).2.SERVING_POOL = s.SERVING_POOL ∧
    (generate_quiz cfg e t D s).2.api_call_count = s.api_call_count ∧
    (generate_quiz cfg e t D s).2.last_reset_date = s.last_reset_date := by
  rw [gate_reject cfg e t D s h]
  exact ⟨rfl, rfl, rfl, rfl, rfl, rfl⟩

/-- Witness for C8: 55 requests already retained in the window. -/
theorem rate_limited_rejection_atomic_witness :
    defaultConfig.MINUTE_LIMIT ≤
      (purge defaultConfig 0 (List.replicate 55 0)).length ∧
    (generate_quiz defaultConfig envOK 0 0 ⟨List.replicate 55 0, 7, 0, ["A"], []⟩).1 =
      QuizResponse.rateLimited :=
  ⟨by decide,
   (rate_limited_rejection_atomic defaultConfig envOK 0 0
      ⟨List.replicate 55 0, 7, 0, ["A"], []⟩ (by decide)).1⟩

/-- C9: Stock size bound invariant — one call preserves
`QUIZ_CACHE.length ≤ SET_SIZE`: generation is attempted only when the
stock is strictly below the target, so a stock at the bound never grows
past it. -/
theorem stock_size_bound (cfg : Config) (e : Env) (t D : Int) (s : ServerState)
    (h : s.QUIZ_CACHE.length ≤ cfg.SET_SIZE) :
    (generate_quiz cfg e t D s).2.QUIZ_CACHE.length ≤ cfg.SET_SIZE := by
  by_cases hadm : cfg.MINUTE_LIMIT ≤ (purge cfg t s.request_timestamps).length
  · rw [gate_reject cfg e t D s hadm]
    exact h
  · have hadm2 : (purge cfg t s.request_timestamps).length < cfg.MINUTE_LIMIT := by omega
    cases hpool : s.SERVING_POOL.getLast? with
    | some q =>
      rw [step_pop cfg e t D s q hadm2 hpool]
      exact h
    | none =>
      have hpool2 : s.SERVING_POOL = [] := List.getLast?_eq_none_iff.mp hpool
      by_cases hgrow :
          s.QUIZ_CACHE.length < cfg.SET_SIZE ∧ rolledCount s D < cfg.DAILY_API_LIMIT
      · cases hg : genResult e with
        | ok q =>
          rw [step_gen_ok cfg e t D s q hadm2 hpool2 hg hgrow.1 hgrow.2]
          have := hgrow.1
          simp only [List.length_append, List.length_singleton]
          omega
        | error err =>
          rw [step_gen_err cfg e t D s err hadm2 hpool2 hg hgrow.1 hgrow.2]
          exact h
      · by_cases hnil : s.QUIZ_CACHE = []
        · rw [step_exhausted cfg e t D s hadm2 hpool2 hgrow hnil]
          simp
        · rw [step_batch_any cfg e t D s hadm2 hpool2 hgrow hnil]
          rw [(batchPath_frame e _).1]
          exact h

/-- Witness for C9: a full stock of 5 stays at 5. -/
theorem stock_size_bound_witness :
    (generate_quiz defaultConfig envOK 0 0
        ⟨[], 3, 0, ["A", "B", "C", "D", "E"], []⟩).2.QUIZ_CACHE.length ≤
      defaultConfig.SET_SIZE :=
  stock_size_bound defaultConfig envOK 0 0 ⟨[], 3, 0, ["A", "B", "C", "D", "E"], []⟩
    (by decide)

/-- C10: Every admitted request records its timestamp, failures
included — the final window is the purged window plus the new timestamp
exactly when the response is not the rate-limit rejection, and the
purged window alone when it is; the Lambda variant with the API key
loaded behaves identically. -/
theorem timestamp_recorded_iff_admitted (cfg : Config) (e : Env) (t D : Int)
    (s : ServerState) :
    ((generate_quiz cfg e t D s).2.request_timestamps =
      if (generate_quiz cfg e t D s).1 = QuizResponse.rateLimited
      then purge cfg t s.request_timestamps
      else purge cfg t s.request_timestamps ++ [t]) ∧
    generate_quiz_boto3 cfg true e t D s = generate_quiz cfg e t D s := by
  refine ⟨?_, rfl⟩
  by_cases hadm : cfg.MINUTE_LIMIT ≤ (purge cfg t s.request_timestamps).length
  · rw [gate_reject cfg e t D s hadm]
    simp
  · have hadm2 : (purge cfg t s.request_timestamps).length < cfg.MINUTE_LIMIT := by omega
    cases hpool : s.SERVING_POOL.getLast? with
    | some q =>
      rw [step_pop cfg e t D s q hadm2 hpool]
      simp
    | none =>
      have hpool2 : s.SERVING_POOL = [] := List.getLast?_eq_none_iff.mp hpool
      by_cases hgrow :
          s.QUIZ_CACHE.length < cfg.SET_SIZE ∧ rolledCount s D < cfg.DAILY_API_LIMIT
      · cases hg : genResult e with
        | ok q =>
          rw [step_gen_ok cfg e t D s q hadm2 hpool2 hg hgrow.1 hgrow.2]
          simp
        | error err =>
          rw [step_gen_err cfg e t D s err hadm2 hpool2 hg hgrow.1 hgrow.2]
          simp
      · by_cases hnil : s.QUIZ_CACHE = []
        · rw [step_exhausted cfg e t D s hadm2 hpool2 hgrow hnil]
          simp
        · rw [step_batch_any cfg e t D s hadm2 hpool2 hgrow hnil]
          rw [if_neg (batchPath_frame e _).2.2.2.2]
          exact (batchPath_frame e _).2.2.2.1

/-- A concrete environment whose raw response contains no brace at all. -/
def envNoBrace : Env := ⟨some ['a'], fun _ => some "Q", fun l => l⟩

/-- C4: Parse-failure isolation without budget rollback — an admitted
call that reaches the generation step with a raw response containing no
`{` or no `}` answers the `ValueError` 500, leaves the stock and pool
unchanged, and keeps the daily counter incremented by one over its
post-rollover value. -/
theorem parse_failure_isolation (cfg : Config) (e : Env) (t D : Int) (s : ServerState)
    (raw : List Char)
    (hadm : (purge cfg t s.request_timestamps).length < cfg.MINUTE_LIMIT)
    (hpool : s.SERVING_POOL = [])
    (hresp : e.response = some raw)
    (hbrace : strFind raw '{' = -1 ∨ strRfind raw '}' = -1)
    (hcache : s.QUIZ_CACHE.length < cfg.SET_SIZE)
    (hbud : rolledCount s D < cfg.DAILY_API_LIMIT) :
    (generate_quiz cfg e t D s).1 = QuizResponse.genError GenFailure.noJsonFound ∧
    (generate_quiz cfg e t D s).2.QUIZ_CACHE = s.QUIZ_CACHE ∧
    (generate_quiz cfg e t D s).2.SERVING_POOL = s.SERVING_POOL ∧
    (generate_quiz cfg e t D s).2.api_call_count = rolledCount s D + 1 := by
  have hg : genResult e = Except.error GenFailure.noJsonFound := by
    unfold genResult
    rw [hresp]
    rcases hbrace with hb | hb
    · simp [hb]
    · simp [hb]
  rw [step_gen_err cfg e t D s GenFailure.noJsonFound hadm hpool hg hcache hbud, hpool]
  exact ⟨rfl, rfl, rfl, rfl⟩

/-- Witness for C4: raw response `"a"` has no braces; the budget counter
ends at 1 and the stock stays empty. -/
theorem parse_failure_isolation_witness :
    strFind ['a'] '{' = -1 ∧
    (generate_quiz defaultConfig envNoBrace 0 0 ⟨[], 0, 0, [], []⟩).1 =
      QuizResponse.genError GenFailure.noJsonFound ∧
    (generate_quiz defaultConfig envNoBrace 0 0 ⟨[], 0, 0, [], []⟩).2.QUIZ_CACHE = [] ∧
    (generate_quiz defaultConfig envNoBrace 0 0 ⟨[], 0, 0, [], []⟩).2.api_call_count = 1 :=
  ⟨by decide,
   (parse_failure_isolation defaultConfig envNoBrace 0 0 ⟨[], 0, 0, [], []⟩ ['a']
      (by decide) rfl rfl (Or.inl (by decide)) (by decide) (by decide)).1,
   (parse_failure_isolation defaultConfig envNoBrace 0 0 ⟨[], 0, 0, [], []⟩ ['a']
      (by decide) rfl rfl (Or.inl (by decide)) (by decide) (by decide)).2.1,
   (parse_failure_isolation defaultConfig envNoBrace 0 0 ⟨[], 0, 0, [], []⟩ ['a']
      (by decide) rfl rfl (Or.inl (by decide)) (by decide) (by decide)).2.2.2⟩

/-! ## Rate limiter sequence lemmas -/

theorem rlCheck_admitted (cfg : Config) (now : Int) (tss : List Int)
    (hw : ∀ x ∈ tss, now - x < cfg.MINUTE_WINDOW)
    (hlen : tss.length < cfg.MINUTE_LIMIT) :
    rateLimitCheck cfg now tss = (true, tss ++ [now]) := by
  unfold rateLimitCheck
  rw [purge_keep cfg now tss hw, if_neg (by omega)]

theorem rlCheck_rejected (cfg : Config) (now : Int) (tss : List Int)
    (hw : ∀ x ∈ tss, now - x < cfg.MINUTE_WINDOW)
    (hlen : cfg.MINUTE_LIMIT ≤ tss.length) :
    rateLimitCheck cfg now tss = (false, tss) := by
  unfold rateLimitCheck
  rw [purge_keep cfg now tss hw, if_pos hlen]

/-- While the total count stays at most the limit and all timestamps lie
within one window of each other, every request is admitted and the
retained list is the full history. -/
theorem rlRun_all_true (cfg : Config) (times : List Int) (tss : List Int)
    (hw : ∀ a ∈ tss ++ times, ∀ b ∈ tss ++ times, a - b < cfg.MINUTE_WINDOW)
    (hlen : tss.length + times.length ≤ cfg.MINUTE_LIMIT) :
    rlRun cfg times tss = (List.replicate times.length true, tss ++ times) := by
  induction times generalizing tss with
  | nil => simp [rlRun]
  | cons t rest ih =>
    have hstep : rateLimitCheck cfg t tss = (true, tss ++ [t]) := by
      apply rlCheck_admitted
      · intro x hx
        exact hw t (by simp) x (by simp [hx])
      · simp at hlen
        omega
    have ihw : ∀ a ∈ (tss ++ [t]) ++ rest, ∀ b ∈ (tss ++ [t]) ++ rest,
        a - b < cfg.MINUTE_WINDOW := by
      intro a ha b hb
      rw [List.append_assoc, List.singleton_append] at ha hb
      exact hw a ha b hb
    have ihl : (tss ++ [t]).length + rest.length ≤ cfg.MINUTE_LIMIT := by
      simp at hlen ⊢
      omega
    have ih2 := ih (tss ++ [t]) ihw ihl
    unfold rlRun
    rw [hstep]
    simp only [ih2]
    simp [List.replicate_succ]

/-- Running the limiter over a concatenated sequence processes the two
halves in order, threading the retained window through. -/
theorem rlRun_append (cfg : Config) (xs ys tss : List Int) :
    rlRun cfg (xs ++ ys) tss =
      ((rlRun cfg xs tss).1 ++ (rlRun cfg ys (rlRun cfg xs tss).2).1,
       (rlRun cfg ys (rlRun cfg xs tss).2).2) := by
  induction xs generalizing tss with
  | nil => simp [rlRun]
  | cons x rest ih => simp [rlRun, ih]

/-- With every consecutive gap larger than the window, each request
empties the retained window on purge and is admitted. -/
theorem rlRun_gapped (times : List Int) (p : Int)
    (hchain : List.Chain' (fun a b => 60 < b - a) (p :: times)) :
    ∀ r ∈ (rlRun defaultConfig times [p]).1, r = true := by
  induction times generalizing p with
  | nil => simp [rlRun]
  | cons t rest ih =>
    have hgap : (60 : Int) < t - p := (List.chain'_cons.mp hchain).1
    have hstep : rateLimitCheck defaultConfig t [p] = (true, [t]) := by
      unfold rateLimitCheck purge
      have hdrop : ¬(t - p < (60 : Int)) := by omega
      simp [defaultConfig, hdrop]
    unfold rlRun
    rw [hstep]
    intro r hr
    simp only [List.mem_cons] at hr
    rcases hr with h | h
    · exact h
    · exact ih t (List.chain'_cons.mp hchain).2 r h

/-- C2: Rate limiter admission — (1) any 56 requests whose timestamps
all lie within one 60-second window of each other, starting from an
empty window, see the first 55 admitted and the 56th rejected;
(2) requests whose consecutive timestamps are spaced more than 60
seconds apart are all admitted, no matter how many there are. -/
theorem rate_limiter_window :
    (∀ ts : List Int, ts.length = 56 →
      (∀ a ∈ ts, ∀ b ∈ ts, a - b < 60) →
      (rlRun defaultConfig ts []).1 = List.replicate 55 true ++ [false]) ∧
    (∀ ts : List Int, List.Chain' (fun a b => 60 < b - a) ts →
      ∀ r ∈ (rlRun defaultConfig ts []).1, r = true) := by
  constructor
  · intro ts hlen hw
    have hne : ts ≠ [] := by
      intro h
      rw [h] at hlen
      simp at hlen
    have hsplit := List.dropLast_append_getLast hne
    have hmemdl : ∀ a ∈ ts.dropLast, a ∈ ts := by
      intro a ha
      rw [← hsplit]
      exact List.mem_append_left _ ha
    have hdl : ts.dropLast.length = 55 := by
      have := ts.length_dropLast
      omega
    have h1 : rlRun defaultConfig ts.dropLast [] =
        (List.replicate 55 true, ts.dropLast) := by
      have h0 := rlRun_all_true defaultConfig ts.dropLast []
        (by
          intro a ha b hb
          simp only [List.nil_append] at ha hb
          exact hw a (hmemdl a ha) b (hmemdl b hb))
        (by simp [hdl, defaultConfig])
      rw [hdl] at h0
      simpa using h0
    have h2 : rateLimitCheck defaultConfig (ts.getLast hne) ts.dropLast =
        (false, ts.dropLast) := by
      apply rlCheck_rejected
      · intro x hx
        exact hw (ts.getLast hne) (List.getLast_mem hne) x (hmemdl x hx)
      · rw [hdl]
        decide
    calc (rlRun defaultConfig ts []).1
        = (rlRun defaultConfig (ts.dropLast ++ [ts.getLast hne]) []).1 := by rw [hsplit]
      _ = List.replicate 55 true ++ [false] := by
          rw [rlRun_append, h1]
          simp only [rlRun]
          rw [h2]
  · intro ts hchain r hr
    cases ts with
    | nil => simp [rlRun] at hr
    | cons t rest =>
      have hstep : rateLimitCheck defaultConfig t [] = (true, [t]) := by
        unfold rateLimitCheck purge
        simp [defaultConfig]
      unfold rlRun at hr
      rw [hstep] at hr
      simp only [List.mem_cons] at hr
      rcases hr with h | h
      · exact h
      · exact rlRun_gapped rest t hchain r h

/-- Witness for C2: 56 simultaneous requests at time 0, and three
requests spaced 61 seconds or more apart. -/
theorem rate_limiter_window_witness :
    (rlRun defaultConfig (List.replicate 56 0) []).1 =
      List.replicate 55 true ++ [false] ∧
    ∀ r ∈ (rlRun defaultConfig [0, 61, 200] []).1, r = true :=
  ⟨rate_limiter_window.1 (List.replicate 56 0) (by decide) (by decide),
   rate_limiter_window.2 [0, 61, 200]
     (List.chain'_cons.mpr ⟨by norm_num,
        List.chain'_cons.mpr ⟨by norm_num, List.chain'_singleton 200⟩⟩)⟩

/-- C1: End-to-end pipeline scenario with `targetSize = 2`,
`dailyLimit = 10`, empty initial stock and pool, five calls on the same
date with all generations succeeding and permutation shuffles: calls 1
and 2 generate (stock grows to `[q1, q2]`, counter to 2); call 3 batches
and pops (pool size 1, stock intact); call 4 drains the pool; call 5
re-batches from the same two-item stock.  Grouped per call as
(response, stock, pool, counter). -/
theorem end_to_end_pipeline (cfg : Config) (hcfg : cfg = ⟨55, 60, 10, 2⟩)
    (D t1 t2 t3 t4 t5 : Int) (e1 e2 e3 e4 e5 : Env) (q1 q2 : Quiz)
    (hg1 : genResult e1 = Except.ok q1) (hg2 : genResult e2 = Except.ok q2)
    (hs3 : ∀ l, List.Perm (e3.shuffle l) l) (hs5 : ∀ l, List.Perm (e5.shuffle l) l)
    (r1 : QuizResponse) (s1 : ServerState)
    (hc1 : (r1, s1) = generate_quiz cfg e1 t1 D ⟨[], 0, D, [], []⟩)
    (r2 : QuizResponse) (s2 : ServerState) (hc2 : (r2, s2) = generate_quiz cfg e2 t2 D s1)
    (r3 : QuizResponse) (s3 : ServerState) (hc3 : (r3, s3) = generate_quiz cfg e3 t3 D s2)
    (r4 : QuizResponse) (s4 : ServerState) (hc4 : (r4, s4) = generate_quiz cfg e4 t4 D s3)
    (r5 : QuizResponse) (s5 : ServerState) (hc5 : (r5, s5) = generate_quiz cfg e5 t5 D s4) :
    (r1 = QuizResponse.quiz q1 ∧ s1.QUIZ_CACHE = [q1] ∧ s1.SERVING_POOL = [] ∧
      s1.api_call_count = 1) ∧
    (r2 = QuizResponse.quiz q2 ∧ s2.QUIZ_CACHE = [q1, q2] ∧ s2.SERVING_POOL = [] ∧
      s2.api_call_count = 2) ∧
    ((∃ q, r3 = QuizResponse.quiz q) ∧ s3.QUIZ_CACHE = [q1, q2] ∧
      s3.SERVING_POOL.length = 1 ∧ s3.api_call_count = 2) ∧
    ((∃ q, r4 = QuizResponse.quiz q) ∧ s4.QUIZ_CACHE = [q1, q2] ∧ s4.SERVING_POOL = [] ∧
      s4.api_call_count = 2) ∧
    ((∃ q, r5 = QuizResponse.quiz q) ∧ s5.QUIZ_CACHE = [q1, q2] ∧
      s5.SERVING_POOL.length = 1 ∧ s5.api_call_count = 2) := by
  subst hcfg
  -- call 1: generation grows the stock to [q1]
  have hadm1 : (purge ⟨55, 60, 10, 2⟩ t1 []).length < 55 := by
    simp [purge]
  have hbud1 : rolledCount (⟨[], 0, D, [], []⟩ : ServerState) D <
      (⟨55, 60, 10, 2⟩ : Config).DAILY_API_LIMIT := by
    rw [rolledCount_same ⟨[], 0, D, [], []⟩ D rfl]
    simp
  have e1c : generate_quiz ⟨55, 60, 10, 2⟩ e1 t1 D ⟨[], 0, D, [], []⟩ =
      (QuizResponse.quiz q1, ⟨[t1], 1, D, [q1], []⟩) := by
    rw [step_gen_ok ⟨55, 60, 10, 2⟩ e1 t1 D ⟨[], 0, D, [], []⟩ q1 hadm1 rfl hg1
      (by simp) hbud1]
    rw [rolledCount_same ⟨[], 0, D, [], []⟩ D rfl, rolledDate_same ⟨[], 0, D, [], []⟩ D rfl]
    exact rfl
  rw [e1c] at hc1
  injection hc1 with hr1 hs1
  subst hs1
  -- call 2: generation grows the stock to [q1, q2]
  have hadm2 : (purge ⟨55, 60, 10, 2⟩ t2 [t1]).length < 55 := by
    have h := purge_length_le ⟨55, 60, 10, 2⟩ t2 [t1]
    simp at h
    omega
  have hbud2 : rolledCount (⟨[t1], 1, D, [q1], []⟩ : ServerState) D <
      (⟨55, 60, 10, 2⟩ : Config).DAILY_API_LIMIT := by
    rw [rolledCount_same ⟨[t1], 1, D, [q1], []⟩ D rfl]
    simp
  have e2c : generate_quiz ⟨55, 60, 10, 2⟩ e2 t2 D ⟨[t1], 1, D, [q1], []⟩ =
      (QuizResponse.quiz q2,
       ⟨purge ⟨55, 60, 10, 2⟩ t2 [t1] ++ [t2], 2, D, [q1, q2], []⟩) := by
    rw [step_gen_ok ⟨55, 60, 10, 2⟩ e2 t2 D ⟨[t1], 1, D, [q1], []⟩ q2 hadm2 rfl hg2
      (by simp) hbud2]
    rw [rolledCount_same ⟨[t1], 1, D, [q1], []⟩ D rfl,
      rolledDate_same ⟨[t1], 1, D, [q1], []⟩ D rfl]
    exact rfl
  rw [e2c] at hc2
  injection hc2 with hr2 hs2
  subst hs2
  -- call 3: stock full, budget-gated growth refused, batch and pop
  have hadm3 : (purge ⟨55, 60, 10, 2⟩ t3 (purge ⟨55, 60, 10, 2⟩ t2 [t1] ++ [t2])).length <
      55 := by
    have ha := purge_length_le ⟨55, 60, 10, 2⟩ t3 (purge ⟨55, 60, 10, 2⟩ t2 [t1] ++ [t2])
    have hb := purge_length_le ⟨55, 60, 10, 2⟩ t2 [t1]
    simp [List.length_append] at ha hb
    omega
  obtain ⟨q3, e3eq⟩ := step_batch ⟨55, 60, 10, 2⟩ e3 t3 D
    ⟨purge ⟨55, 60, 10, 2⟩ t2 [t1] ++ [t2], 2, D, [q1, q2], []⟩ hadm3 rfl
    (by
      intro hcon
      exact absurd hcon.1 (by simp))
    (by simp) (hs3 [q1, q2])
  rw [rolledCount_same ⟨purge ⟨55, 60, 10, 2⟩ t2 [t1] ++ [t2], 2, D, [q1, q2], []⟩ D rfl,
    rolledDate_same ⟨purge ⟨55, 60, 10, 2⟩ t2 [t1] ++ [t2], 2, D, [q1, q2], []⟩ D rfl]
    at e3eq
  have e3c : generate_quiz ⟨55, 60, 10, 2⟩ e3 t3 D
      ⟨purge ⟨55, 60, 10, 2⟩ t2 [t1] ++ [t2], 2, D, [q1, q2], []⟩ =
      (QuizResponse.quiz q3,
       ⟨purge ⟨55, 60, 10, 2⟩ t3 (purge ⟨55, 60, 10, 2⟩ t2 [t1] ++ [t2]) ++ [t3], 2, D,
        [q1, q2], (e3.shuffle [q1, q2]).dropLast⟩) := e3eq
  rw [e3c] at hc3
  injection hc3 with hr3 hs3x
  subst hs3x
  have hlen3 : (e3.shuffle [q1, q2]).dropLast.length = 1 := by
    have h := (hs3 [q1, q2]).length_eq
    simp [h]
  -- call 4: pop the single remaining pool item
  obtain ⟨a4, ha4⟩ := List.length_eq_one.mp hlen3
  have hadm4 : (purge ⟨55, 60, 10, 2⟩ t4
      (purge ⟨55, 60, 10, 2⟩ t3 (purge ⟨55, 60, 10, 2⟩ t2 [t1] ++ [t2]) ++ [t3])).length <
      55 := by
    have ha := purge_length_le ⟨55, 60, 10, 2⟩ t4
      (purge ⟨55, 60, 10, 2⟩ t3 (purge ⟨55, 60, 10, 2⟩ t2 [t1] ++ [t2]) ++ [t3])
    have hb := purge_length_le ⟨55, 60, 10, 2⟩ t3 (purge ⟨55, 60, 10, 2⟩ t2 [t1] ++ [t2])
    have hc := purge_length_le ⟨55, 60, 10, 2⟩ t2 [t1]
    simp [List.length_append] at ha hb hc
    omega
  rw [ha4] at hc4
  have e4c : generate_quiz ⟨55, 60, 10, 2⟩ e4 t4 D
      ⟨purge ⟨55, 60, 10, 2⟩ t3 (purge ⟨55, 60, 10, 2⟩ t2 [t1] ++ [t2]) ++ [t3], 2, D,
        [q1, q2], [a4]⟩ =
      (QuizResponse.quiz a4,
       ⟨purge ⟨55, 60, 10, 2⟩ t4
          (purge ⟨55, 60, 10, 2⟩ t3 (purge ⟨55, 60, 10, 2⟩ t2 [t1] ++ [t2]) ++ [t3]) ++
          [t4], 2, D, [q1, q2], []⟩) := by
    rw [step_pop ⟨55, 60, 10, 2⟩ e4 t4 D
      ⟨purge ⟨55, 60, 10, 2⟩ t3 (purge ⟨55, 60, 10, 2⟩ t2 [t1] ++ [t2]) ++ [t3], 2, D,
        [q1, q2], [a4]⟩ a4 hadm4 rfl]
    exact rfl
  rw [e4c] at hc4
  injection hc4 with hr4 hs4
  subst hs4
  -- call 5: pool empty again, re-batch from the unchanged stock
  have hadm5 : (purge ⟨55, 60, 10, 2⟩ t5
      (purge ⟨55, 60, 10, 2⟩ t4
        (purge ⟨55, 60, 10, 2⟩ t3 (purge ⟨55, 60, 10, 2⟩ t2 [t1] ++ [t2]) ++ [t3]) ++
        [t4])).length < 55 := by
    have ha := purge_length_le ⟨55, 60, 10, 2⟩ t5
      (purge ⟨55, 60, 10, 2⟩ t4
        (purge ⟨55, 60, 10, 2⟩ t3 (purge ⟨55, 60, 10, 2⟩ t2 [t1] ++ [t2]) ++ [t3]) ++ [t4])
    have hb := purge_length_le ⟨55, 60, 10, 2⟩ t4
      (purge ⟨55, 60, 10, 2⟩ t3 (purge ⟨55, 60, 10, 2⟩ t2 [t1] ++ [t2]) ++ [t3])
    have hc := purge_length_le ⟨55, 60, 10, 2⟩ t3 (purge ⟨55, 60, 10, 2⟩ t2 [t1] ++ [t2])
    have hd := purge_length_le ⟨55, 60, 10, 2⟩ t2 [t1]
    simp [List.length_append] at ha hb hc hd
    omega
  obtain ⟨q5, e5eq⟩ := step_batch ⟨55, 60, 10, 2⟩ e5 t5 D
    ⟨purge ⟨55, 60, 10, 2⟩ t4
        (purge ⟨55, 60, 10, 2⟩ t3 (purge ⟨55, 60, 10, 2⟩ t2 [t1] ++ [t2]) ++ [t3]) ++
        [t4], 2, D, [q1, q2], []⟩ hadm5 rfl
    (by
      intro hcon
      exact absurd hcon.1 (by simp))
    (by simp) (hs5 [q1, q2])
  rw [rolledCount_same
      ⟨purge ⟨55, 60, 10, 2⟩ t4
        (purge ⟨55, 60, 10, 2⟩ t3 (purge ⟨55, 60, 10, 2⟩ t2 [t1] ++ [t2]) ++ [t3]) ++
        [t4], 2, D, [q1, q2], []⟩ D rfl,
    rolledDate_same
      ⟨purge ⟨55, 60, 10, 2⟩ t4
        (purge ⟨55, 60, 10, 2⟩ t3 (purge ⟨55, 60, 10, 2⟩ t2 [t1] ++ [t2]) ++ [t3]) ++
        [t4], 2, D, [q1, q2], []⟩ D rfl] at e5eq
  have e5c : generate_quiz ⟨55, 60, 10, 2⟩ e5 t5 D
      ⟨purge ⟨55, 60, 10, 2⟩ t4
        (purge ⟨55, 60, 10, 2⟩ t3 (purge ⟨55, 60, 10, 2⟩ t2 [t1] ++ [t2]) ++ [t3]) ++
        [t4], 2, D, [q1, q2], []⟩ =
      (QuizResponse.quiz q5,
       ⟨purge ⟨55, 60, 10, 2⟩ t5
          (purge ⟨55, 60, 10, 2⟩ t4
            (purge ⟨55, 60, 10, 2⟩ t3 (purge ⟨55, 60, 10, 2⟩ t2 [t1] ++ [t2]) ++ [t3]) ++
            [t4]) ++ [t5], 2, D, [q1, q2], (e5.shuffle [q1, q2]).dropLast⟩) := e5eq
  rw [e5c] at hc5
  injection hc5 with hr5 hs5x
  subst hs5x
  have hlen5 : (e5.shuffle [q1, q2]).dropLast.length = 1 := by
    have h := (hs5 [q1, q2]).length_eq
    simp [h]
  exact ⟨⟨hr1, rfl, rfl, rfl⟩, ⟨hr2, rfl, rfl, rfl⟩,
    ⟨⟨q3, hr3⟩, rfl, hlen3, rfl⟩, ⟨⟨a4, hr4⟩, rfl, rfl, rfl⟩,
    ⟨⟨q5, hr5⟩, rfl, hlen5, rfl⟩⟩

/-- Concrete five-call run of the C1 scenario (all calls at time 0 on
date 0, generator always yields "Q", identity shuffle). -/
def w1 : QuizResponse × ServerState :=
  generate_quiz ⟨55, 60, 10, 2⟩ envOK 0 0 ⟨[], 0, 0, [], []⟩

def w2 : QuizResponse × ServerState := generate_quiz ⟨55, 60, 10, 2⟩ envOK 0 0 w1.2

def w3 : QuizResponse × ServerState := generate_quiz ⟨55, 60, 10, 2⟩ envOK 0 0 w2.2

def w4 : QuizResponse × ServerState := generate_quiz ⟨55, 60, 10, 2⟩ envOK 0 0 w3.2

def w5 : QuizResponse × ServerState := generate_quiz ⟨55, 60, 10, 2⟩ envOK 0 0 w4.2

/-- Witness for C1 on the concrete five-call run. -/
theorem end_to_end_pipeline_witness :
    w1.1 = QuizResponse.quiz "Q" ∧ w2.2.QUIZ_CACHE = ["Q", "Q"] ∧
    w3.2.SERVING_POOL.length = 1 ∧ w4.2.SERVING_POOL = [] ∧
    w5.2.SERVING_POOL.length = 1 := by
  have h := end_to_end_pipeline ⟨55, 60, 10, 2⟩ rfl 0 0 0 0 0 0
    envOK envOK envOK envOK envOK "Q" "Q" rfl rfl
    (fun l => List.Perm.refl l) (fun l => List.Perm.refl l)
    w1.1 w1.2 rfl w2.1 w2.2 rfl w3.1 w3.2 rfl w4.1 w4.2 rfl w5.1 w5.2 rfl
  exact ⟨h.1.1, h.2.1.2.1, h.2.2.1.2.2.1, h.2.2.2.1.2.2.1, h.2.2.2.2.2.2.1⟩

/-! ## Pipeline phase lemmas for the batch-draw claim -/

/-- Generation phase: parse-successful environments, empty pool, call
date equal to the budget date, and headroom in limiter, stock target and
budget — each call serves a quiz, the stock and counter grow by one per
call, and the pool stays empty. -/
theorem run_gen_phase (cfg : Config) (t D : Int) (ges : List Env) (s : ServerState)
    (hgen : ∀ e ∈ ges, ∃ q, genResult e = Except.ok q)
    (hpool : s.SERVING_POOL = [])
    (hdate : s.last_reset_date = D)
    (hadm : s.request_timestamps.length + ges.length ≤ cfg.MINUTE_LIMIT)
    (hcache : s.QUIZ_CACHE.length + ges.length ≤ cfg.SET_SIZE)
    (hbud : s.api_call_count + ges.length ≤ cfg.DAILY_API_LIMIT) :
    (∀ r ∈ (pipelineRun cfg ges t D s).1, ∃ q, r = QuizResponse.quiz q) ∧
    (pipelineRun cfg ges t D s).2.SERVING_POOL = [] ∧
    (pipelineRun cfg ges t D s).2.last_reset_date = D ∧
    (pipelineRun cfg ges t D s).2.QUIZ_CACHE.length =
      s.QUIZ_CACHE.length + ges.length ∧
    (pipelineRun cfg ges t D s).2.api_call_count =
      s.api_call_count + ges.length ∧
    (pipelineRun cfg ges t D s).2.request_timestamps.length ≤
      s.request_timestamps.length + ges.length := by
  induction ges generalizing s with
  | nil =>
    exact ⟨by simp [pipelineRun], by simp [pipelineRun, hpool],
      by simp [pipelineRun, hdate], by simp [pipelineRun],
      by simp [pipelineRun], by simp [pipelineRun]⟩
  | cons e rest ih =>
    obtain ⟨q, hq⟩ := hgen e (by simp)
    have hple := purge_length_le cfg t s.request_timestamps
    have hadm1 : (purge cfg t s.request_timestamps).length < cfg.MINUTE_LIMIT := by
      simp at hadm
      omega
    have hcache1 : s.QUIZ_CACHE.length < cfg.SET_SIZE := by
      simp at hcache
      omega
    have hbud1 : rolledCount s D < cfg.DAILY_API_LIMIT := by
      rw [rolledCount_same s D hdate]
      simp at hbud
      omega
    have hstep := step_gen_ok cfg e t D s q hadm1 hpool hq hcache1 hbud1
    rw [rolledCount_same s D hdate, rolledDate_same s D hdate] at hstep
    have hnext := ih
      (⟨purge cfg t s.request_timestamps ++ [t], s.api_call_count + 1, D,
        s.QUIZ_CACHE ++ [q], []⟩ : ServerState)
      (fun e2 he2 => hgen e2 (by simp [he2]))
      rfl rfl
      (by
        simp at hadm ⊢
        omega)
      (by
        simp at hcache ⊢
        omega)
      (by
        simp at hbud ⊢
        omega)
    simp only [pipelineRun, hstep]
    refine ⟨?_, hnext.2.1, hnext.2.2.1, ?_, ?_, ?_⟩
    · intro r hr
      simp only [List.mem_cons] at hr
      rcases hr with h | h
      · exact ⟨q, h⟩
      · exact hnext.1 r h
    · have h2 := hnext.2.2.2.1
      simp at h2 ⊢
      omega
    · have h2 := hnext.2.2.2.2.1
      simp at h2 ⊢
      omega
    · have h2 := hnext.2.2.2.2.2
      simp at h2 ⊢
      omega

/-- Pool-draining phase: while the pool holds at least as many items as
there are calls (and the limiter has headroom), every call pops one pool
item; the stock, the counter and the date are untouched. -/
theorem run_pop_phase (cfg : Config) (t D : Int) (envs : List Env) (s : ServerState)
    (hlen : envs.length ≤ s.SERVING_POOL.length)
    (hadm : s.request_timestamps.length + envs.length ≤ cfg.MINUTE_LIMIT) :
    (∀ r ∈ (pipelineRun cfg envs t D s).1, ∃ q, r = QuizResponse.quiz q) ∧
    (pipelineRun cfg envs t D s).2.SERVING_POOL.length =
      s.SERVING_POOL.length - envs.length ∧
    (pipelineRun cfg envs t D s).2.QUIZ_CACHE = s.QUIZ_CACHE ∧
    (pipelineRun cfg envs t D s).2.api_call_count = s.api_call_count ∧
    (pipelineRun cfg envs t D s).2.last_reset_date = s.last_reset_date ∧
    (pipelineRun cfg envs t D s).2.request_timestamps.length ≤
      s.request_timestamps.length + envs.length := by
  induction envs generalizing s with
  | nil =>
    exact ⟨by simp [pipelineRun], by simp [pipelineRun], by simp [pipelineRun],
      by simp [pipelineRun], by simp [pipelineRun], by simp [pipelineRun]⟩
  | cons e rest ih =>
    have hple := purge_length_le cfg t s.request_timestamps
    have hadm1 : (purge cfg t s.request_timestamps).length < cfg.MINUTE_LIMIT := by
      simp at hadm
      omega
    have hne : s.SERVING_POOL ≠ [] := by
      intro h0
      rw [h0] at hlen
      simp at hlen
    obtain ⟨q, hq⟩ := Option.isSome_iff_exists.mp (List.getLast?_isSome.mpr hne)
    have hstep := step_pop cfg e t D s q hadm1 hq
    have hnext := ih
      (⟨purge cfg t s.request_timestamps ++ [t], s.api_call_count, s.last_reset_date,
        s.QUIZ_CACHE, s.SERVING_POOL.dropLast⟩ : ServerState)
      (by
        simp at hlen ⊢
        omega)
      (by
        simp at hadm ⊢
        omega)
    simp only [pipelineRun, hstep]
    refine ⟨?_, ?_, hnext.2.2.1, hnext.2.2.2.1, hnext.2.2.2.2.1, ?_⟩
    · intro r hr
      simp only [List.mem_cons] at hr
      rcases hr with h | h
      · exact ⟨q, h⟩
      · exact hnext.1 r h
    · have h2 := hnext.2.1
      simp at h2 ⊢
      omega
    · have h2 := hnext.2.2.2.2.2
      simp at h2 ⊢
      omega

/-- C6: Batch draw exhaustion — for any `N ≥ 1` with `targetSize ≥ N`
and `dailyLimit = N`: starting empty, `N` successful generations fill
the stock to `N` with the pool empty; the next call batches the stock
into a pool and pops (draw 1 of `N`, pool size `N - 1`); the following
`N - 1` calls each pop (draws 2..`N`), leaving the pool empty; the next
call must re-batch from the unchanged `N`-item stock. -/
theorem batch_draw_exhaustion (N T : Nat) (hN : 1 ≤ N) (hT : N ≤ T) (D t : Int)
    (cfg : Config) (hcfg : cfg = ⟨2 * N + 2, 60, N, T⟩)
    (ges : List Env) (hlen : ges.length = N)
    (hgen : ∀ e ∈ ges, ∃ q, genResult e = Except.ok q)
    (eb epop : Env) (hshuf : ∀ l, List.Perm (eb.shuffle l) l)
    (s1 : ServerState) (hs1 : s1 = (pipelineRun cfg ges t D ⟨[], 0, D, [], []⟩).2)
    (rb : QuizResponse) (s2 : ServerState) (hb : (rb, s2) = generate_quiz cfg eb t D s1)
    (rs : List QuizResponse) (s3 : ServerState)
    (hp : (rs, s3) = pipelineRun cfg (List.replicate (N - 1) epop) t D s2)
    (rr : QuizResponse) (s4 : ServerState) (hr : (rr, s4) = generate_quiz cfg eb t D s3) :
    (s1.QUIZ_CACHE.length = N ∧ s1.SERVING_POOL = []) ∧
    ((∃ q, rb = QuizResponse.quiz q) ∧ s2.SERVING_POOL.length = N - 1 ∧
      s2.QUIZ_CACHE.length = N) ∧
    ((∀ r ∈ rs, ∃ q, r = QuizResponse.quiz q) ∧ s3.SERVING_POOL = [] ∧
      s3.QUIZ_CACHE.length = N) ∧
    ((∃ q, rr = QuizResponse.quiz q) ∧ s4.SERVING_POOL.length = N - 1 ∧
      s4.QUIZ_CACHE.length = N) := by
  subst hcfg
  subst hs1
  have hph1 := run_gen_phase ⟨2 * N + 2, 60, N, T⟩ t D ges ⟨[], 0, D, [], []⟩ hgen rfl rfl
    (by simp [hlen]; omega) (by simp [hlen]; omega) (by simp [hlen])
  set S1 := (pipelineRun ⟨2 * N + 2, 60, N, T⟩ ges t D ⟨[], 0, D, [], []⟩).2 with hS1
  have f1pool : S1.SERVING_POOL = [] := hph1.2.1
  have f1date : S1.last_reset_date = D := hph1.2.2.1
  have f1cache : S1.QUIZ_CACHE.length = N := by
    have h2 := hph1.2.2.2.1
    simpa [hlen] using h2
  have f1count : S1.api_call_count = N := by
    have h2 := hph1.2.2.2.2.1
    simpa [hlen] using h2
  have f1ts : S1.request_timestamps.length ≤ N := by
    have h2 := hph1.2.2.2.2.2
    simp [hlen] at h2
    omega
  -- draw 1: batching call
  have hadmB : (purge ⟨2 * N + 2, 60, N, T⟩ t S1.request_timestamps).length < 2 * N + 2 := by
    have h := purge_length_le ⟨2 * N + 2, 60, N, T⟩ t S1.request_timestamps
    omega
  have hneB : S1.QUIZ_CACHE ≠ [] := by
    intro h0
    rw [h0] at f1cache
    simp at f1cache
    omega
  have hngB : ¬(S1.QUIZ_CACHE.length < (⟨2 * N + 2, 60, N, T⟩ : Config).SET_SIZE ∧
      rolledCount S1 D < (⟨2 * N + 2, 60, N, T⟩ : Config).DAILY_API_LIMIT) := by
    rw [rolledCount_same S1 D f1date, f1count]
    intro hcon
    have h2 := hcon.2
    simp at h2
  obtain ⟨qb, hbeq⟩ := step_batch ⟨2 * N + 2, 60, N, T⟩ eb t D S1 hadmB f1pool hngB hneB
    (hshuf S1.QUIZ_CACHE)
  rw [hbeq] at hb
  injection hb with hrb hs2
  have f2pool : s2.SERVING_POOL.length = N - 1 := by
    rw [hs2]
    have h2 := (hshuf S1.QUIZ_CACHE).length_eq
    simp [h2, f1cache]
  have f2cache : s2.QUIZ_CACHE.length = N := by
    rw [hs2]
    simpa using f1cache
  have f2count : s2.api_call_count = N := by
    rw [hs2]
    show rolledCount S1 D = N
    rw [rolledCount_same S1 D f1date, f1count]
  have f2date : s2.last_reset_date = D := by
    rw [hs2]
    show rolledDate S1 D = D
    exact rolledDate_same S1 D f1date
  have f2ts : s2.request_timestamps.length ≤ N + 1 := by
    rw [hs2]
    show (purge ⟨2 * N + 2, 60, N, T⟩ t S1.request_timestamps ++ [t]).length ≤ N + 1
    have h := purge_length_le ⟨2 * N + 2, 60, N, T⟩ t S1.request_timestamps
    simp
    omega
  -- draws 2..N: pool-draining calls
  have hph3 := run_pop_phase ⟨2 * N + 2, 60, N, T⟩ t D (List.replicate (N - 1) epop) s2
    (by simp [f2pool])
    (by simp; omega)
  rw [Prod.ext_iff] at hp
  obtain ⟨hrs, hs3⟩ := hp
  simp at hrs hs3
  have f3pool : s3.SERVING_POOL = [] := by
    have h2 := hph3.2.1
    simp [f2pool] at h2
    rw [hs3]
    exact h2
  have f3cache : s3.QUIZ_CACHE.length = N := by
    rw [hs3, hph3.2.2.1]
    exact f2cache
  have f3count : s3.api_call_count = N := by
    rw [hs3, hph3.2.2.2.1]
    exact f2count
  have f3date : s3.last_reset_date = D := by
    rw [hs3, hph3.2.2.2.2.1]
    exact f2date
  have f3ts : s3.request_timestamps.length ≤ 2 * N := by
    have h2 := hph3.2.2.2.2.2
    simp at h2
    rw [hs3]
    omega
  -- the rebuild call
  have hadmR : (purge ⟨2 * N + 2, 60, N, T⟩ t s3.request_timestamps).length < 2 * N + 2 := by
    have h := purge_length_le ⟨2 * N + 2, 60, N, T⟩ t s3.request_timestamps
    omega
  have hneR : s3.QUIZ_CACHE ≠ [] := by
    intro h0
    rw [h0] at f3cache
    simp at f3cache
    omega
  have hngR : ¬(s3.QUIZ_CACHE.length < (⟨2 * N + 2, 60, N, T⟩ : Config).SET_SIZE ∧
      rolledCount s3 D < (⟨2 * N + 2, 60, N, T⟩ : Config).DAILY_API_LIMIT) := by
    rw [rolledCount_same s3 D f3date, f3count]
    intro hcon
    have h2 := hcon.2
    simp at h2
  obtain ⟨qr, hreq⟩ := step_batch ⟨2 * N + 2, 60, N, T⟩ eb t D s3 hadmR f3pool hngR hneR
    (hshuf s3.QUIZ_CACHE)
  rw [hreq] at hr
  injection hr with hrr hs4
  have f4pool : s4.SERVING_POOL.length = N - 1 := by
    rw [hs4]
    have h2 := (hshuf s3.QUIZ_CACHE).length_eq
    simp [h2, f3cache]
  have f4cache : s4.QUIZ_CACHE.length = N := by
    rw [hs4]
    simpa using f3cache
  refine ⟨⟨f1cache, f1pool⟩, ⟨⟨qb, hrb⟩, f2pool, f2cache⟩,
    ⟨?_, f3pool, f3cache⟩, ⟨⟨qr, hrr⟩, f4pool, f4cache⟩⟩
  intro r hrm
  rw [hrs] at hrm
  exact hph3.1 r hrm

/-- Concrete C6 run at `N = 1`: one generation, the batching draw, zero
further pops, and the rebuild call. -/
def c6run1 : ServerState :=
  (pipelineRun ⟨4, 60, 1, 1⟩ [envOK] 0 0 ⟨[], 0, 0, [], []⟩).2

def c6run2 : QuizResponse × ServerState := generate_quiz ⟨4, 60, 1, 1⟩ envOK 0 0 c6run1

def c6run3 : List QuizResponse × ServerState :=
  pipelineRun ⟨4, 60, 1, 1⟩ (List.replicate 0 envOK) 0 0 c6run2.2

def c6run4 : QuizResponse × ServerState := generate_quiz ⟨4, 60, 1, 1⟩ envOK 0 0 c6run3.2

/-- Witness for C6 on the concrete `N = 1` run. -/
theorem batch_draw_exhaustion_witness :
    c6run1.QUIZ_CACHE.length = 1 ∧ (∃ q, c6run2.1 = QuizResponse.quiz q) ∧
    c6run3.2.SERVING_POOL = [] ∧ c6run4.2.SERVING_POOL.length = 0 := by
  have h := batch_draw_exhaustion 1 1 le_rfl le_rfl 0 0 ⟨4, 60, 1, 1⟩ rfl [envOK] rfl
    (by
      intro e he
      simp at he
      subst he
      exact ⟨"Q", rfl⟩)
    envOK envOK (fun l => List.Perm.refl l)
    c6run1 rfl c6run2.1 c6run2.2 rfl c6run3.1 c6run3.2 rfl c6run4.1 c6run4.2 rfl
  exact ⟨h.1.1, h.2.1.1, h.2.2.1.2.1, h.2.2.2.2.1⟩
